import Mathlib

/-!
Shallow embedding of the waveshare-barcodescanner protocol driver
(`src/crc.rs`, `src/interface.rs`, `src/lib.rs`) and proofs of the
specification claims about it.

Machine integers (`u8`, `u16`, `usize`) are embedded as `Nat` with explicit
masking where the source wraps; fallible Rust functions returning
`anyhow::Result` are embedded as `Except Err`; a Rust panic (out-of-bounds
slice index) is a distinct outcome constructor, since it escapes the
`Result` type entirely.
-/

set_option maxRecDepth 100000

deriving instance DecidableEq for Except

namespace Waveshare

/-- Error kinds surfaced by the driver, one constructor per `anyhow!` site
relevant to the claims. -/
inductive Err where
  /-- "read data is shorter than expected, got {} expected {} bytes" -/
  | shortReply (got : Nat) (expected : Nat)
  /-- "invalid header received" -/
  | invalidHeader
  /-- "barcode scanner indicates an unsuccessful operation, rc: {}" -/
  | deviceStatus (rc : Nat)
  /-- "checksums don't match, expected {} received {}" -/
  | checksumMismatch (expected : Nat) (calculated : Nat)
  /-- a `try_into` conversion to `u8` failed (value above 255) -/
  | conversionError (value : Nat)
  /-- transport-level I/O failure propagated from the serial port -/
  | ioError
  /-- "unsupported barcode type received: {}" -/
  | unsupportedBarcodeType (code : Nat)
  /-- "timeout is too big, maximum value is 25500 ms (25.5s)" -/
  | timeoutTooBig
  /-- "this crate does not support indefinite waiting" -/
  | indefiniteWaitUnsupported
deriving DecidableEq

/-! ## Checksum engine (`src/crc.rs`) -/

/-- One shift step of the 16-bit CRC register: shift left, conditionally
XOR the polynomial 0x1021, keep 16 bits.  This is the per-bit semantics of
`crc_any`'s `CRC::create_crc_u16(0x1021, 16, 0, 0, false)` (no input or
output reflection, zero initial value and XOR-out). -/
def crc_bit_step (crc : Nat) : Nat :=
  if crc &&& 0x8000 ≠ 0 then ((crc <<< 1) ^^^ 0x1021) &&& 0xFFFF
  else (crc <<< 1) &&& 0xFFFF

/-- Digest one input byte, MSB-first: XOR the byte into the high half of
the register, then run eight shift steps. -/
def crc_byte_step (crc b : Nat) : Nat :=
  crc_bit_step^[8] (crc ^^^ ((b &&& 0xFF) <<< 8))

/-- `calculate_crc` of `src/crc.rs`: digest the whole byte sequence with
initial register value 0.  The `u16::try_from` in the source always
succeeds because the register is kept below 2^16. -/
def calculate_crc (data : List Nat) : Nat :=
  data.foldl crc_byte_step 0

example : calculate_crc [0x00, 0x01, 0x00] = 0x3331 := by decide
example : calculate_crc [0x00, 0x07, 0x01, 0x00, 0x0A, 0x01] = 0xEE8A := by decide
example : calculate_crc [0x00, 0x00, 0x01, 0x3E] = 0xE4AC := by decide
example : calculate_crc [0x00, 0x08, 0x01, 0x00, 0x0A, 0x3E] = 0x4CCF := by decide

/-- Modelled from the spec, for comparison with `calculate_crc`: the inner
loop of the CRC-16/CCITT reference definition, "polynomial 0x1021,
initial register value 0, no input/output reflection, computed MSB-first
per byte" — a countdown of 8 register-shift rounds. -/
def crc16_msb_rounds : Nat → Nat → Nat
  | 0, crc => crc
  | n + 1, crc =>
      crc16_msb_rounds n
        (if crc &&& 0x8000 = 0 then (crc <<< 1) &&& 0xFFFF
         else ((crc <<< 1) ^^^ 0x1021) &&& 0xFFFF)

/-- Modelled from the spec, for comparison with `calculate_crc`: the
CRC-16/CCITT reference over a message, threading the register through the
bytes MSB-first. -/
def crc16_reference_run : List Nat → Nat → Nat
  | [], crc => crc
  | b :: rest, crc => crc16_reference_run rest (crc16_msb_rounds 8 (crc ^^^ ((b % 256) * 256)))

/-- Modelled from the spec: the CRC-16/CCITT reference definition with
initial register value 0. -/
def crc16_reference (data : List Nat) : Nat :=
  crc16_reference_run data 0

/-- `IGNORED_CHECKSUM` of `src/lib.rs`: sentinel indicating that the
checksum was not calculated and must not be validated. -/
def IGNORED_CHECKSUM : Nat := 0xabcd

/-- `verify_crc` of `src/crc.rs`. -/
def verify_crc (data : List Nat) (expected_checksum : Nat) : Except Err Unit :=
  if expected_checksum = IGNORED_CHECKSUM then .ok ()
  else if expected_checksum ≠ calculate_crc data then
    .error (.checksumMismatch expected_checksum (calculate_crc data))
  else .ok ()

/-! ## Frame codec (`src/interface.rs`) -/

/-- `send_to_serial` of `src/interface.rs`: build the outgoing command
frame.  Returns the exact byte sequence passed to `port.write_all`.
`address.to_be_bytes()` of a `u16` is the two big-endian bytes; the
trailing checksum is computed over `buffer[2..]` and appended big-endian.
The requested reply length 256 is pushed as the sentinel byte 0x00, other
values go through `usize::try_into::<u8>`. -/
def send_to_serial (function_type length_byte : Nat) (address : Nat)
    (return_data_length : Option Nat) (write_data : Option (List Nat)) :
    Except Err (List Nat) :=
  let header := [0x7e, 0x00, function_type, length_byte,
    (address / 256) % 256, address % 256]
  let rdlBytes : Except Err (List Nat) :=
    match return_data_length with
    | none => .ok []
    | some rdl =>
        if rdl = 256 then .ok [0x00]
        else if rdl ≤ 255 then .ok [rdl]
        else .error (.conversionError rdl)
  match rdlBytes with
  | .error e => .error e
  | .ok rb =>
      let body := header ++ rb ++ write_data.getD []
      let crc := calculate_crc (body.drop 2)
      .ok (body ++ [crc / 256, crc % 256])

/-- Possible outcomes of `read_from_serial_command_reply` once the reply
bytes are in hand: a successful parse returning the payload and its
effective length, a protocol-level `Err` returned through `Result`, or a
Rust panic (out-of-bounds slice index), which escapes `Result`. -/
inductive ReplyOutcome where
  | ok (payload : List Nat) (len : Nat)
  | protocolError (e : Err)
  | panicked
deriving DecidableEq

/-- The reply's effective data length: the length byte at index 3 with the
sentinel 0 reinterpreted as 256. -/
def effective_data_length (buffer : List Nat) : Nat :=
  if buffer.getD 3 0 = 0 then 256 else buffer.getD 3 0

/-- `read_from_serial_command_reply` of `src/interface.rs`, as a function
of the destination capacity (`read_data.len()`) and of the byte buffer
filled by `port.read_exact` (the source allocates it with
`read_data.len() + 6` bytes).  The final
`read_data[..data_length].copy_from_slice(&buffer[4..data_length + 4])`
panics when either slice index is out of bounds, which is the `panicked`
outcome. -/
def read_from_serial_command_reply (destLen : Nat) (buffer : List Nat) :
    ReplyOutcome :=
  if buffer.length < 6 then
    .protocolError (.shortReply buffer.length destLen)
  else if ¬(buffer.getD 0 0 = 0x02 ∧ buffer.getD 1 0 = 0x00) then
    .protocolError .invalidHeader
  else if buffer.getD 2 0 ≠ 0 then
    .protocolError (.deviceStatus (buffer.getD 2 0))
  else
    match verify_crc ((buffer.drop 2).take (buffer.length - 4))
        (((buffer.getD (buffer.length - 2) 0) <<< 8) |||
          buffer.getD (buffer.length - 1) 0) with
    | .error e => .protocolError e
    | .ok _ =>
        if destLen < effective_data_length buffer ∨
            buffer.length < effective_data_length buffer + 4 then
          .panicked
        else
          .ok ((buffer.drop 4).take (effective_data_length buffer))
            (effective_data_length buffer)

/-! ## Scan payload decoder (`src/interface.rs`) -/

/-- `Barcode` of `src/lib.rs`. -/
inductive Barcode where
  | interleaved2of5 (data : String)
  | ean13 (data : String)
  | code128 (data : String)
  | code39 (data : String)
  | qr (data : List String)
  | microQR (data : List String)
  | dotMatrix (data : List String)
deriving DecidableEq

/-- `.iter().map(|&c| c as char).collect::<String>()`: each byte becomes
the character with that code point. -/
def bytes_to_chars (l : List Nat) : String :=
  String.mk (l.map Char.ofNat)

/-- `read_line_from_serial` of `src/interface.rs`, over the stream of
bytes the port will deliver: accumulate bytes until a line feed (0x0A,
returns `(line, false)`) or a carriage return (0x0D, returns
`(line, true)`), also yielding the unconsumed remainder of the stream.
`none` models a stream that ends before any terminator (the source call
would block or fail with "no data was read from the device"). -/
def read_line_from_serial : List Nat → Option (List Nat × Bool × List Nat)
  | [] => none
  | b :: rest =>
      if b = 0x0A then some ([], false, rest)
      else if b = 0x0D then some ([], true, rest)
      else
        match read_line_from_serial rest with
        | none => none
        | some (line, eod, rem) => some (b :: line, eod, rem)

/-- The line-accumulation loop of `read_barcode`: repeatedly call
`read_line_from_serial`, pushing only non-empty lines, until end of data.
Fuel-indexed; `read_line_from_serial` consumes at least one byte per call,
so fuel equal to the stream length always suffices. -/
def collect_lines : Nat → List Nat → Option (List (List Nat))
  | 0, _ => none
  | fuel + 1, stream =>
      match read_line_from_serial stream with
      | none => none
      | some (line, true, _) => some (if line.isEmpty then [] else [line])
      | some (line, false, rest) =>
          match collect_lines fuel rest with
          | none => none
          | some ls => some (if line.isEmpty then ls else line :: ls)

/-- Outcome of the one-byte Code-ID read at the top of `read_barcode`:
either the deadline elapsed with no byte arriving, or bytes were read, or
the port failed. -/
inductive SerialRead where
  | timeout
  | data (bytes : List Nat)
  | ioFailure
deriving DecidableEq

/-- `read_from_serial_exact` of `src/interface.rs` with a deadline, for a
pre-zeroed buffer `buf`: on `TimedOut` past the deadline it returns `Ok`
with the buffer unchanged; otherwise the read fills the buffer or the
error propagates. -/
def read_from_serial_exact (buf : List Nat) (incoming : SerialRead) :
    Except Err (List Nat) :=
  match incoming with
  | .timeout => .ok buf
  | .data bytes => .ok bytes
  | .ioFailure => .error .ioError

/-- The classification match at the end of `read_barcode`, applied once at
least one line has been collected. -/
def classify_barcode (codeid : Nat) (lines : List (List Nat)) :
    Except Err (Option Barcode) :=
  if codeid = 0x65 then .ok (some (.interleaved2of5 (bytes_to_chars (lines.headD []))))
  else if codeid = 0x62 then .ok (some (.code39 (bytes_to_chars (lines.headD []))))
  else if codeid = 0x64 then .ok (some (.ean13 (bytes_to_chars (lines.headD []))))
  else if codeid = 0x6A then .ok (some (.code128 (bytes_to_chars (lines.headD []))))
  else if codeid = 0x51 then .ok (some (.qr (lines.map bytes_to_chars)))
  else if codeid = 0x75 then .ok (some (.dotMatrix (lines.map bytes_to_chars)))
  else .error (.unsupportedBarcodeType codeid)

/-- `read_barcode` of `src/interface.rs`: read one Code-ID byte into a
buffer initialized to `[0x00]` with the scan timeout as deadline (so a
timeout leaves the buffer holding 0x00); 0x00 means "no result"; then run
the line loop over the remaining stream, return "no result" if no
non-empty line was collected, otherwise classify. -/
def read_barcode (incoming : SerialRead) (stream : List Nat) :
    Except Err (Option Barcode) :=
  match read_from_serial_exact [0x00] incoming with
  | .error e => .error e
  | .ok buf =>
      if buf.getD 0 0 = 0x00 then .ok none
      else
        match collect_lines stream.length stream with
        | none => .error .ioError
        | some lines =>
            if lines.isEmpty then .ok none
            else classify_barcode (buf.getD 0 0) lines

/-! ## Scan-timeout configuration (`src/interface.rs`) -/

/-- The fields of `BarcodeScanner` relevant to the claims: the stored
scan timeout, in milliseconds. -/
structure BarcodeScanner where
  scan_timeout : Nat
deriving DecidableEq

/-- `set_scan_timeout` of `src/interface.rs`.  `writeResult` is the
outcome of the `send_write_command(0x0006, ...)` round trip (transmission
plus acknowledgement validation).  Returns the call's result, the session
state afterwards, and the `(address, payload)` handed to
`send_write_command` (`none` when the call failed before any I/O). -/
def set_scan_timeout (st : BarcodeScanner) (ms : Nat)
    (writeResult : Except Err Unit) :
    Except Err Unit × BarcodeScanner × Option (Nat × List Nat) :=
  if 25500 < ms then (.error .timeoutTooBig, st, none)
  else if ms = 0 then (.error .indefiniteWaitUnsupported, st, none)
  else if 255 < ms / 100 then (.error (.conversionError (ms / 100)), st, none)
  else
    match writeResult with
    | .error e => (.error e, st, some (0x0006, [ms / 100]))
    | .ok _ => (.ok (), ⟨ms⟩, some (0x0006, [ms / 100]))

/-! ## Helper lemmas -/

theorem crc_bit_step_eq_round_body (crc : Nat) :
    crc_bit_step crc =
      (if crc &&& 0x8000 = 0 then (crc <<< 1) &&& 0xFFFF
       else ((crc <<< 1) ^^^ 0x1021) &&& 0xFFFF) := by
  unfold crc_bit_step
  by_cases h : crc &&& 0x8000 = 0 <;> simp [h]

theorem crc_bit_step_iterate_eq_rounds (n : Nat) (crc : Nat) :
    crc_bit_step^[n] crc = crc16_msb_rounds n crc := by
  induction n generalizing crc with
  | zero => rfl
  | succ n ih =>
      rw [Function.iterate_succ_apply, ih, crc16_msb_rounds,
        crc_bit_step_eq_round_body]

theorem crc_byte_step_eq_reference (crc b : Nat) :
    crc_byte_step crc b = crc16_msb_rounds 8 (crc ^^^ ((b % 256) * 256)) := by
  have hmask : b &&& 0xFF = b % 256 := by
    have := Nat.and_pow_two_sub_one_eq_mod b 8
    norm_num at this
    exact this
  have hshift : (b % 256) <<< 8 = (b % 256) * 256 := by
    rw [Nat.shiftLeft_eq]
  rw [crc_byte_step, crc_bit_step_iterate_eq_rounds, hmask, hshift]

theorem foldl_crc_eq_reference_run (data : List Nat) :
    ∀ crc, data.foldl crc_byte_step crc = crc16_reference_run data crc := by
  induction data with
  | nil => intro crc; rfl
  | cons b rest ih =>
      intro crc
      rw [List.foldl_cons, ih, crc16_reference_run, crc_byte_step_eq_reference]

/-! ## Claim theorems -/

/-- Claim C9: `calculate_crc` equals the CRC-16/CCITT reference definition
(polynomial 0x1021, initial register value 0, no input or output
reflection, MSB-first per byte), and the four known vectors hold. -/
theorem claim_c9_crc_reference :
    (∀ data, calculate_crc data = crc16_reference data) ∧
    calculate_crc [0x00, 0x01, 0x00] = 0x3331 ∧
    calculate_crc [0x00, 0x07, 0x01, 0x00, 0x0A, 0x01] = 0xEE8A ∧
    calculate_crc [0x00, 0x00, 0x01, 0x3E] = 0xE4AC ∧
    calculate_crc [0x00, 0x08, 0x01, 0x00, 0x0A, 0x3E] = 0x4CCF :=
  ⟨fun data => foldl_crc_eq_reference_run data 0,
   by decide, by decide, by decide, by decide⟩

/-- Claim C5: `verify_crc` accepts the sentinel 0xABCD unconditionally
(short-circuiting before any checksum computation), and for every other
expected value succeeds exactly when `calculate_crc` of the data equals
it. -/
theorem claim_c5_verify_sentinel :
    (∀ b, verify_crc b 0xABCD = .ok ()) ∧
    (∀ b e, e ≠ 0xABCD → (verify_crc b e = .ok () ↔ calculate_crc b = e)) := by
  constructor
  · intro b
    simp [verify_crc, IGNORED_CHECKSUM]
  · intro b e he
    have hne : e ≠ IGNORED_CHECKSUM := by simpa [IGNORED_CHECKSUM] using he
    simp only [verify_crc, if_neg hne]
    by_cases hc : e = calculate_crc b
    · simp [hc, eq_comm]
    · simp [hc, Ne.symm, fun h : calculate_crc b = e => hc h.symm]

/-- Claim C5 witness. -/
theorem claim_c5_witness :
    verify_crc [0x00, 0x01, 0x00] 0xABCD = .ok () ∧
    (verify_crc [0x00, 0x01, 0x00] 0x3331 = .ok () ↔
      calculate_crc [0x00, 0x01, 0x00] = 0x3331) :=
  ⟨claim_c5_verify_sentinel.1 [0x00, 0x01, 0x00],
   claim_c5_verify_sentinel.2 [0x00, 0x01, 0x00] 0x3331 (by decide)⟩

/-- Claim C3: a scan read in which no byte arrives before the scan-timeout
deadline, or in which the first byte read is 0x00, makes `read_barcode`
return `Ok(None)` ("no result"), which is a different constructor from
every error. -/
theorem claim_c3_timeout_is_no_result :
    (∀ stream, read_barcode .timeout stream = .ok none) ∧
    (∀ stream, read_barcode (.data [0x00]) stream = .ok none) ∧
    (∀ e, (Except.ok none : Except Err (Option Barcode)) ≠ .error e) :=
  ⟨fun _ => rfl, fun _ => rfl, fun _ h => Except.noConfusion h⟩

theorem reply_ok_inversion (destLen : Nat) (buffer payload : List Nat) (len : Nat)
    (h : read_from_serial_command_reply destLen buffer = .ok payload len) :
    len = effective_data_length buffer ∧ len ≤ destLen ∧
    payload = (buffer.drop 4).take len := by
  unfold read_from_serial_command_reply at h
  split at h
  · simp at h
  split at h
  · simp at h
  split at h
  · simp at h
  split at h
  · simp at h
  · split at h
    · simp at h
    · rename_i hnot
      push_neg at hnot
      obtain ⟨hp, hl⟩ := ReplyOutcome.ok.inj h
      exact ⟨hl.symm, hl ▸ hnot.1, by rw [← hp, hl]⟩

/-- Claim C1, as stated, is falsified here: with destination capacity 1
and a validated reply whose length byte is 2 (effective data length 2),
`read_from_serial_command_reply` panics (out-of-bounds slice) — the
outcome is the `panicked` constructor, not a returned protocol-level
error value. -/
theorem claim_c1_counterexample :
    1 < effective_data_length [0x02, 0x00, 0x00, 0x02, 0x41, 0xAB, 0xCD] ∧
    read_from_serial_command_reply 1 [0x02, 0x00, 0x00, 0x02, 0x41, 0xAB, 0xCD] =
      ReplyOutcome.panicked := by decide

/-- Claim C1 (amended): if the reply's effective data length exceeds the
destination capacity, reply parsing never succeeds with a (truncated)
payload, and — whenever the header/status/checksum validation passes — it
fails loudly by panicking on the out-of-bounds slice rather than
returning, silently truncating, or surfacing a protocol error value. -/
theorem claim_c1_amended (destLen : Nat) (buffer : List Nat)
    (hover : destLen < effective_data_length buffer) :
    (∀ payload len,
      read_from_serial_command_reply destLen buffer ≠ .ok payload len) ∧
    (6 ≤ buffer.length → buffer.getD 0 0 = 0x02 → buffer.getD 1 0 = 0x00 →
      buffer.getD 2 0 = 0 →
      verify_crc ((buffer.drop 2).take (buffer.length - 4))
        (((buffer.getD (buffer.length - 2) 0) <<< 8) |||
          buffer.getD (buffer.length - 1) 0) = .ok () →
      read_from_serial_command_reply destLen buffer = .panicked) := by
  constructor
  · intro payload len h
    have := (reply_ok_inversion destLen buffer payload len h).2.1
    have hlen := (reply_ok_inversion destLen buffer payload len h).1
    omega
  · intro h6 h0 h1 h2 hcrc
    unfold read_from_serial_command_reply
    rw [if_neg (by omega), if_neg (by simp only [not_not]; exact ⟨h0, h1⟩),
      if_neg (by simp only [ne_eq, not_not]; exact h2), hcrc,
      if_pos (Or.inl hover)]

/-- Claim C1 witness. -/
theorem claim_c1_witness :
    1 < effective_data_length [0x02, 0x00, 0x00, 0x02, 0x42, 0xAB, 0xCD] ∧
    read_from_serial_command_reply 1 [0x02, 0x00, 0x00, 0x02, 0x42, 0xAB, 0xCD] =
      .panicked :=
  ⟨by decide,
   (claim_c1_amended 1 [0x02, 0x00, 0x00, 0x02, 0x42, 0xAB, 0xCD] (by decide)).2
     (by decide) (by decide) (by decide) (by decide) (by decide)⟩

/-- Claim C2, as stated, is falsified here: a reply whose trailing
big-endian checksum bytes are 0xAB 0xCD (the sentinel value 0xABCD) and
whose actual CRC over bytes [2 .. len-2) differs from it parses
successfully instead of yielding a checksum-mismatch error. -/
theorem claim_c2_counterexample :
    (((0xAB : Nat) <<< 8) ||| 0xCD) ≠
      calculate_crc (([0x02, 0x00, 0x00, 0x01, 0x41, 0xAB, 0xCD].drop 2).take 3) ∧
    read_from_serial_command_reply 1 [0x02, 0x00, 0x00, 0x01, 0x41, 0xAB, 0xCD] =
      .ok [0x41] 1 := by decide

/-- Claim C2 (amended): `read_from_serial_command_reply` rejects malformed
replies with the matching error — short buffer, invalid header, nonzero
status carrying the code, and trailing checksum differing from the CRC
over bytes [2 .. len-2) — the last unless the trailing checksum equals
the sentinel 0xABCD, in which case verification is suppressed. -/
theorem claim_c2_amended :
    (∀ destLen buffer, buffer.length < 6 →
      read_from_serial_command_reply destLen buffer =
        .protocolError (.shortReply buffer.length destLen)) ∧
    (∀ destLen buffer, 6 ≤ buffer.length →
      ¬(buffer.getD 0 0 = 0x02 ∧ buffer.getD 1 0 = 0x00) →
      read_from_serial_command_reply destLen buffer =
        .protocolError .invalidHeader) ∧
    (∀ destLen buffer, 6 ≤ buffer.length →
      buffer.getD 0 0 = 0x02 → buffer.getD 1 0 = 0x00 → buffer.getD 2 0 ≠ 0 →
      read_from_serial_command_reply destLen buffer =
        .protocolError (.deviceStatus (buffer.getD 2 0))) ∧
    (∀ destLen buffer, 6 ≤ buffer.length →
      buffer.getD 0 0 = 0x02 → buffer.getD 1 0 = 0x00 → buffer.getD 2 0 = 0 →
      (((buffer.getD (buffer.length - 2) 0) <<< 8) |||
          buffer.getD (buffer.length - 1) 0) ≠ IGNORED_CHECKSUM →
      (((buffer.getD (buffer.length - 2) 0) <<< 8) |||
          buffer.getD (buffer.length - 1) 0) ≠
        calculate_crc ((buffer.drop 2).take (buffer.length - 4)) →
      read_from_serial_command_reply destLen buffer =
        .protocolError (.checksumMismatch
          (((buffer.getD (buffer.length - 2) 0) <<< 8) |||
            buffer.getD (buffer.length - 1) 0)
          (calculate_crc ((buffer.drop 2).take (buffer.length - 4))))) := by
  refine ⟨?_, ?_, ?_, ?_⟩
  · intro destLen buffer hlt
    unfold read_from_serial_command_reply
    rw [if_pos hlt]
  · intro destLen buffer h6 hhdr
    unfold read_from_serial_command_reply
    rw [if_neg (by omega), if_pos hhdr]
  · intro destLen buffer h6 h0 h1 h2
    unfold read_from_serial_command_reply
    rw [if_neg (by omega), if_neg (by simp only [not_not]; exact ⟨h0, h1⟩),
      if_pos h2]
  · intro destLen buffer h6 h0 h1 h2 hsent hmism
    unfold read_from_serial_command_reply
    rw [if_neg (by omega), if_neg (by simp only [not_not]; exact ⟨h0, h1⟩),
      if_neg (by simp only [ne_eq, not_not]; exact h2)]
    have hv : verify_crc ((buffer.drop 2).take (buffer.length - 4))
        (((buffer.getD (buffer.length - 2) 0) <<< 8) |||
          buffer.getD (buffer.length - 1) 0) =
        .error (.checksumMismatch
          (((buffer.getD (buffer.length - 2) 0) <<< 8) |||
            buffer.getD (buffer.length - 1) 0)
          (calculate_crc ((buffer.drop 2).take (buffer.length - 4)))) := by
      unfold verify_crc
      rw [if_neg hsent, if_pos hmism]
    rw [hv]

/-- Claim C2 witness. -/
theorem claim_c2_witness :
    read_from_serial_command_reply 2 [0x02, 0x00, 0x00] =
      .protocolError (.shortReply 3 2) ∧
    read_from_serial_command_reply 1 [0x03, 0x00, 0x00, 0x01, 0x41, 0x00, 0x00] =
      .protocolError .invalidHeader ∧
    read_from_serial_command_reply 1 [0x02, 0x00, 0x05, 0x01, 0x41, 0x00, 0x00] =
      .protocolError (.deviceStatus 5) ∧
    read_from_serial_command_reply 1 [0x02, 0x00, 0x00, 0x01, 0x41, 0x00, 0x00] =
      .protocolError (.checksumMismatch 0
        (calculate_crc (([0x02, 0x00, 0x00, 0x01, 0x41, 0x00, 0x00].drop 2).take 3))) := by
  refine ⟨claim_c2_amended.1 2 [0x02, 0x00, 0x00] (by decide),
    claim_c2_amended.2.1 1 [0x03, 0x00, 0x00, 0x01, 0x41, 0x00, 0x00]
      (by decide) (by decide),
    claim_c2_amended.2.2.1 1 [0x02, 0x00, 0x05, 0x01, 0x41, 0x00, 0x00]
      (by decide) (by decide) (by decide) (by decide),
    ?_⟩
  have := claim_c2_amended.2.2.2 1 [0x02, 0x00, 0x00, 0x01, 0x41, 0x00, 0x00]
    (by decide) (by decide) (by decide) (by decide) (by decide) (by decide)
  simpa using this

/-- Claim C4: the 0 and 256 sentinel mapping is bidirectional at the codec
boundary — `send_to_serial` encodes a requested reply length of 256 as
byte 0x00 and every length 1..=255 as itself, and
`read_from_serial_command_reply` returns effective length 256 for length
byte 0x00 and the byte itself otherwise. -/
theorem claim_c4_sentinel_codec :
    (∀ ft lb addr wd frame,
      send_to_serial ft lb addr (some 256) wd = .ok frame →
      frame.getD 6 1 = 0x00) ∧
    (∀ ft lb addr wd n frame, 1 ≤ n → n ≤ 255 →
      send_to_serial ft lb addr (some n) wd = .ok frame →
      frame.getD 6 256 = n) ∧
    (∀ destLen buffer payload len,
      read_from_serial_command_reply destLen buffer = .ok payload len →
      len = (if buffer.getD 3 0 = 0 then 256 else buffer.getD 3 0)) := by
  refine ⟨?_, ?_, ?_⟩
  · intro ft lb addr wd frame h
    simp only [send_to_serial, if_pos rfl] at h
    obtain ⟨rfl⟩ := Except.ok.inj h
    simp [List.getD_append]
  · intro ft lb addr wd n frame h1 h255 h
    have hne : n ≠ 256 := by omega
    simp only [send_to_serial, if_neg hne, if_pos h255] at h
    obtain ⟨rfl⟩ := Except.ok.inj h
    simp [List.getD_append]
  · intro destLen buffer payload len h
    exact (reply_ok_inversion destLen buffer payload len h).1

/-- Claim C4 witness. -/
theorem claim_c4_witness :
    ([126, 0, 7, 1, 0, 10, 0, 254, 171] : List Nat).getD 6 1 = 0x00 ∧
    ([126, 0, 7, 1, 0, 10, 62, 41, 54] : List Nat).getD 6 256 = 62 ∧
    (1 : Nat) =
      (if ([0x02, 0x00, 0x00, 0x01, 0x41, 0xAB, 0xCD] : List Nat).getD 3 0 = 0
       then 256
       else ([0x02, 0x00, 0x00, 0x01, 0x41, 0xAB, 0xCD] : List Nat).getD 3 0) :=
  ⟨claim_c4_sentinel_codec.1 0x07 0x01 0x000A none _ (by decide),
   claim_c4_sentinel_codec.2.1 0x07 0x01 0x000A none 62 _ (by decide) (by decide)
     (by decide),
   claim_c4_sentinel_codec.2.2 1 [0x02, 0x00, 0x00, 0x01, 0x41, 0xAB, 0xCD]
     [0x41] 1 (by decide)⟩

theorem read_line_clean_append :
    ∀ (xs : List Nat), (0x0A : Nat) ∉ xs → (0x0D : Nat) ∉ xs →
    ∀ (rest : List Nat),
      read_line_from_serial (xs ++ 0x0A :: rest) = some (xs, false, rest) ∧
      read_line_from_serial (xs ++ 0x0D :: rest) = some (xs, true, rest) := by
  intro xs
  induction xs with
  | nil =>
      intro _ _ rest
      constructor <;> simp [read_line_from_serial]
  | cons x xs ih =>
      intro hA hD rest
      simp only [List.mem_cons, not_or] at hA hD
      obtain ⟨hxA, hA'⟩ := hA
      obtain ⟨hxD, hD'⟩ := hD
      obtain ⟨e1, e2⟩ := ih hA' hD' rest
      constructor <;>
        simp [read_line_from_serial, Ne.symm hxA, Ne.symm hxD, e1, e2]

/-- Claim C6: a line feed ends the current accumulated line and continues
the loop; an empty accumulated line is dropped without terminating the
loop; a carriage return terminates the loop regardless of what follows;
and when zero non-empty lines were collected at termination,
`read_barcode` returns "no result". -/
theorem claim_c6_line_loop :
    (∀ fuel xs rest, (0x0A : Nat) ∉ xs → (0x0D : Nat) ∉ xs → xs ≠ [] →
      collect_lines (fuel + 1) (xs ++ 0x0A :: rest) =
        (collect_lines fuel rest).map (xs :: ·)) ∧
    (∀ fuel rest,
      collect_lines (fuel + 1) ((0x0A : Nat) :: rest) = collect_lines fuel rest) ∧
    (∀ fuel xs rest, (0x0A : Nat) ∉ xs → (0x0D : Nat) ∉ xs →
      collect_lines (fuel + 1) (xs ++ 0x0D :: rest) =
        some (if xs.isEmpty then [] else [xs])) ∧
    (∀ b stream, b ≠ 0x00 → collect_lines stream.length stream = some [] →
      read_barcode (.data [b]) stream = .ok none) := by
  refine ⟨?_, ?_, ?_, ?_⟩
  · intro fuel xs rest hA hD hne
    have e := (read_line_clean_append xs hA hD rest).1
    have hempty : xs.isEmpty = false := by
      cases xs
      · exact absurd rfl hne
      · rfl
    simp only [collect_lines, e]
    cases h : collect_lines fuel rest <;> simp [hempty]
  · intro fuel rest
    have e : read_line_from_serial (0x0A :: rest) = some ([], false, rest) := by
      simp [read_line_from_serial]
    simp only [collect_lines, e]
    cases h : collect_lines fuel rest <;> simp
  · intro fuel xs rest hA hD
    have e := (read_line_clean_append xs hA hD rest).2
    simp only [collect_lines, e]
  · intro b stream hb hcol
    simp [read_barcode, read_from_serial_exact, hcol, hb]

/-- Claim C6 witness. -/
theorem claim_c6_witness :
    collect_lines 2 ([0x41] ++ 0x0A :: [0x0D]) =
      (collect_lines 1 [0x0D]).map ([0x41] :: ·) ∧
    collect_lines 2 ((0x0A : Nat) :: [0x0D]) = collect_lines 1 [0x0D] ∧
    collect_lines 2 ([0x41] ++ 0x0D :: []) =
      some (if ([0x41] : List Nat).isEmpty then [] else [[0x41]]) ∧
    read_barcode (.data [0x51]) [0x0D] = .ok none :=
  ⟨claim_c6_line_loop.1 1 [0x41] [0x0D] (by decide) (by decide) (by decide),
   claim_c6_line_loop.2.1 1 [0x0D],
   claim_c6_line_loop.2.2.1 1 [0x41] [] (by decide) (by decide),
   claim_c6_line_loop.2.2.2 0x51 [0x0D] (by decide) (by decide)⟩

/-- Claim C7: for a terminated scan payload with at least one non-empty
collected line, classification byte 0x64 yields a single-line EAN13
result holding the first collected line (likewise 0x65, 0x62, 0x6A for
the other linear symbologies), 0x51 yields a QR result holding the full
ordered line sequence (likewise 0x75 for DotMatrix), and every other
nonzero classification byte yields an unsupported-barcode-type error,
distinct from "no result". -/
theorem claim_c7_classification (stream : List Nat) (lines : List (List Nat))
    (hc : collect_lines stream.length stream = some lines) (hne : lines ≠ []) :
    read_barcode (.data [0x64]) stream =
      .ok (some (.ean13 (bytes_to_chars (lines.headD [])))) ∧
    read_barcode (.data [0x65]) stream =
      .ok (some (.interleaved2of5 (bytes_to_chars (lines.headD [])))) ∧
    read_barcode (.data [0x62]) stream =
      .ok (some (.code39 (bytes_to_chars (lines.headD [])))) ∧
    read_barcode (.data [0x6A]) stream =
      .ok (some (.code128 (bytes_to_chars (lines.headD [])))) ∧
    read_barcode (.data [0x51]) stream =
      .ok (some (.qr (lines.map bytes_to_chars))) ∧
    read_barcode (.data [0x75]) stream =
      .ok (some (.dotMatrix (lines.map bytes_to_chars))) ∧
    (∀ c, c ≠ 0x00 → c ≠ 0x64 → c ≠ 0x65 → c ≠ 0x62 → c ≠ 0x6A → c ≠ 0x51 →
      c ≠ 0x75 →
      read_barcode (.data [c]) stream = .error (.unsupportedBarcodeType c) ∧
      read_barcode (.data [c]) stream ≠ .ok none) := by
  have hempty : lines.isEmpty = false := by
    cases lines
    · exact absurd rfl hne
    · rfl
  refine ⟨?_, ?_, ?_, ?_, ?_, ?_, ?_⟩
  · simp [read_barcode, read_from_serial_exact, hc, hempty, classify_barcode]
  · simp [read_barcode, read_from_serial_exact, hc, hempty, classify_barcode]
  · simp [read_barcode, read_from_serial_exact, hc, hempty, classify_barcode]
  · simp [read_barcode, read_from_serial_exact, hc, hempty, classify_barcode]
  · simp [read_barcode, read_from_serial_exact, hc, hempty, classify_barcode]
  · simp [read_barcode, read_from_serial_exact, hc, hempty, classify_barcode]
  · intro c hc0 h64 h65 h62 h6A h51 h75
    constructor
    · simp [read_barcode, read_from_serial_exact, hc, hempty, classify_barcode,
        hc0, h64, h65, h62, h6A, h51, h75]
    · simp [read_barcode, read_from_serial_exact, hc, hempty, classify_barcode,
        hc0, h64, h65, h62, h6A, h51, h75]

/-- Claim C7 witness. -/
theorem claim_c7_witness :
    read_barcode (.data [0x64])
        [49, 50, 51, 52, 53, 54, 55, 56, 57, 48, 49, 50, 0x0A, 0x0D] =
      .ok (some (.ean13 (bytes_to_chars
        (([[49, 50, 51, 52, 53, 54, 55, 56, 57, 48, 49, 50]] :
          List (List Nat)).headD [])))) ∧
    read_barcode (.data [0x51]) [0x41, 0x42, 0x43, 0x0A, 0x44, 0x45, 0x46, 0x0A, 0x0D] =
      .ok (some (.qr (([[0x41, 0x42, 0x43], [0x44, 0x45, 0x46]] :
        List (List Nat)).map bytes_to_chars))) ∧
    read_barcode (.data [0x99]) [0x41, 0x0A, 0x0D] =
      .error (.unsupportedBarcodeType 0x99) :=
  ⟨(claim_c7_classification [49, 50, 51, 52, 53, 54, 55, 56, 57, 48, 49, 50, 0x0A, 0x0D]
      [[49, 50, 51, 52, 53, 54, 55, 56, 57, 48, 49, 50]] (by decide) (by decide)).1,
   (claim_c7_classification [0x41, 0x42, 0x43, 0x0A, 0x44, 0x45, 0x46, 0x0A, 0x0D]
      [[0x41, 0x42, 0x43], [0x44, 0x45, 0x46]] (by decide) (by decide)).2.2.2.2.1,
   ((claim_c7_classification [0x41, 0x0A, 0x0D] [[0x41]] (by decide) (by decide)).2.2.2.2.2.2
      0x99 (by decide) (by decide) (by decide) (by decide) (by decide) (by decide)
      (by decide)).1⟩

/-- Claim C8: `set_scan_timeout` rejects 0 ms (unsupported indefinite
wait) and every duration above 25500 ms (out of range) before performing
any I/O, and for every duration from 1 ms to 25500 ms it sends a write
command (to address 0x0006) whose single payload byte is the duration in
milliseconds divided by 100, so that 25500 ms encodes as byte 255. -/
theorem claim_c8_timeout_range (st : BarcodeScanner) (w : Except Err Unit) :
    set_scan_timeout st 0 w = (.error .indefiniteWaitUnsupported, st, none) ∧
    (∀ ms, 25500 < ms →
      set_scan_timeout st ms w = (.error .timeoutTooBig, st, none)) ∧
    (∀ ms, 1 ≤ ms → ms ≤ 25500 →
      (set_scan_timeout st ms w).2.2 = some (0x0006, [ms / 100])) ∧
    (set_scan_timeout st 25500 w).2.2 = some (0x0006, [255]) := by
  refine ⟨?_, ?_, ?_, ?_⟩
  · simp [set_scan_timeout]
  · intro ms h
    simp [set_scan_timeout, if_pos h]
  · intro ms h1 h2
    have ha : ¬(25500 < ms) := by omega
    have hb : ms ≠ 0 := by omega
    have hc : ¬(255 < ms / 100) := by omega
    simp only [set_scan_timeout, if_neg ha, if_neg hb, if_neg hc]
    cases w <;> rfl
  · have ha : ¬(25500 < 25500) := by omega
    have hb : (25500 : Nat) ≠ 0 := by omega
    have hc : ¬(255 < 25500 / 100) := by omega
    simp only [set_scan_timeout, if_neg ha, if_neg hb, if_neg hc]
    cases w <;> rfl

/-- Claim C8 witness. -/
theorem claim_c8_witness :
    set_scan_timeout ⟨5000⟩ 0 (.ok ()) =
      (.error .indefiniteWaitUnsupported, ⟨5000⟩, none) ∧
    set_scan_timeout ⟨5000⟩ 25501 (.ok ()) =
      (.error .timeoutTooBig, ⟨5000⟩, none) ∧
    (set_scan_timeout ⟨5000⟩ 300 (.ok ())).2.2 = some (0x0006, [3]) :=
  ⟨(claim_c8_timeout_range ⟨5000⟩ (.ok ())).1,
   (claim_c8_timeout_range ⟨5000⟩ (.ok ())).2.1 25501 (by decide),
   (claim_c8_timeout_range ⟨5000⟩ (.ok ())).2.2.1 300 (by decide) (by decide)⟩

/-- Claim C10: whenever `set_scan_timeout` returns an error — range
rejection or a failed write/acknowledgement — the stored `scan_timeout`
field is unchanged; it becomes the new value exactly when the write round
trip succeeded. -/
theorem claim_c10_stored_timeout (st : BarcodeScanner) (ms : Nat)
    (w : Except Err Unit) :
    (∀ e, (set_scan_timeout st ms w).1 = .error e →
      (set_scan_timeout st ms w).2.1 = st) ∧
    ((set_scan_timeout st ms w).1 = .ok () →
      (set_scan_timeout st ms w).2.1 = ⟨ms⟩ ∧ w = .ok ()) := by
  unfold set_scan_timeout
  split
  · exact ⟨fun e _ => rfl, fun h => by simp at h⟩
  split
  · exact ⟨fun e _ => rfl, fun h => by simp at h⟩
  split
  · exact ⟨fun e _ => rfl, fun h => by simp at h⟩
  · cases w with
    | error e => exact ⟨fun e _ => rfl, fun h => by simp at h⟩
    | ok u => exact ⟨fun e h => by simp at h, fun _ => ⟨rfl, rfl⟩⟩

/-- Claim C10 witness. -/
theorem claim_c10_witness :
    (set_scan_timeout ⟨5000⟩ 300 (.error .ioError)).2.1 = ⟨5000⟩ ∧
    ((set_scan_timeout ⟨5000⟩ 300 (.ok ())).2.1 = ⟨300⟩ ∧
      (Except.ok () : Except Err Unit) = .ok ()) :=
  ⟨(claim_c10_stored_timeout ⟨5000⟩ 300 (.error .ioError)).1 .ioError (by decide),
   (claim_c10_stored_timeout ⟨5000⟩ 300 (.ok ())).2 (by decide)⟩

end Waveshare
